import Mathlib

/-!
Verification of the ClientServer speed-test tool (client.py, server.py,
consts.py): a shallow embedding of the wire codec, the UDP request handler,
the TCP transfer loop, and the client-side result computations, together
with theorems settling the specification's claims.

Bytes are modelled as natural numbers below 256; a packet is a `List Nat`.
Python's `struct.pack`/`struct.unpack` with big-endian fixed-width formats
are modelled by explicit base-256 digit extraction.
-/

namespace SpeedTest

/-! ### Constants (consts.py) -/

def MAGIC_COOKIE : Nat := 0xabcddcba

def OFFER_MESSAGE_TYPE : Nat := 0x2

def REQUEST_MESSAGE_TYPE : Nat := 0x3

def PAYLOAD_MESSAGE_TYPE : Nat := 0x4

def UDP_PORT : Nat := 13117

def TCP_PORT : Nat := 20000

def BUFFER_SIZE : Nat := 1024

/-! ### Big-endian fixed-width integer encoding (struct.pack '!', 'B', 'H', 'I', 'Q') -/

def u16be (n : Nat) : List Nat :=
  [n / 256 % 256, n % 256]

def u32be (n : Nat) : List Nat :=
  [n / 16777216 % 256, n / 65536 % 256, n / 256 % 256, n % 256]

def u64be (n : Nat) : List Nat :=
  [n / 72057594037927936 % 256, n / 281474976710656 % 256,
   n / 1099511627776 % 256, n / 4294967296 % 256,
   n / 16777216 % 256, n / 65536 % 256, n / 256 % 256, n % 256]

def val16 (b0 b1 : Nat) : Nat := b0 * 256 + b1

def val32 (b0 b1 b2 b3 : Nat) : Nat :=
  b0 * 16777216 + b1 * 65536 + b2 * 256 + b3

def val64 (b0 b1 b2 b3 b4 b5 b6 b7 : Nat) : Nat :=
  b0 * 72057594037927936 + b1 * 281474976710656 + b2 * 1099511627776 + b3 * 4294967296 +
  b4 * 16777216 + b5 * 65536 + b6 * 256 + b7

/-! ### Wire codec -/

/-- server.py line 59: `struct.pack('!IBHH', MAGIC_COOKIE, OFFER_MESSAGE_TYPE, udp_port, tcp_port)`. -/
def encodeOffer (udpPort tcpPort : Nat) : List Nat :=
  u32be MAGIC_COOKIE ++ [OFFER_MESSAGE_TYPE] ++ u16be udpPort ++ u16be tcpPort

/-- client.py line 167: `struct.pack('!IBQ', MAGIC_COOKIE, REQUEST_MESSAGE_TYPE, file_size)`. -/
def encodeRequest (fileSize : Nat) : List Nat :=
  u32be MAGIC_COOKIE ++ [REQUEST_MESSAGE_TYPE] ++ u64be fileSize

/-- server.py line 124: `struct.pack('!IBQQ', MAGIC_COOKIE, PAYLOAD_MESSAGE_TYPE, total_segments, segment)`. -/
def encodePayloadHeader (totalSegments segmentIndex : Nat) : List Nat :=
  u32be MAGIC_COOKIE ++ [PAYLOAD_MESSAGE_TYPE] ++ u64be totalSegments ++ u64be segmentIndex

structure Offer where
  magicCookie : Nat
  msgType : Nat
  udpPort : Nat
  tcpPort : Nat
  deriving Repr, DecidableEq

structure Request where
  magicCookie : Nat
  msgType : Nat
  fileSize : Nat
  deriving Repr, DecidableEq

structure PayloadHeader where
  magicCookie : Nat
  msgType : Nat
  totalSegments : Nat
  segmentIndex : Nat
  deriving Repr, DecidableEq

/-- client.py lines 64-75: drop datagrams shorter than 9 bytes, unpack
`'!IBHH'` from `data[:9]`, and drop the datagram unless the magic cookie and
offer message type match. -/
def decodeOffer (data : List Nat) : Option Offer :=
  if data.length < 9 then none
  else
    let magic_cookie := val32 (data.getD 0 0) (data.getD 1 0) (data.getD 2 0) (data.getD 3 0)
    let message_type := data.getD 4 0
    let udp_port := val16 (data.getD 5 0) (data.getD 6 0)
    let tcp_port := val16 (data.getD 7 0) (data.getD 8 0)
    if magic_cookie ≠ MAGIC_COOKIE ∨ message_type ≠ OFFER_MESSAGE_TYPE then none
    else some ⟨magic_cookie, message_type, udp_port, tcp_port⟩

/-- server.py lines 111-117: return on packets shorter than 13 bytes, unpack
`'!IBQ'` from `data[:13]`, and return unless the magic cookie and request
message type match. -/
def decodeRequest (data : List Nat) : Option Request :=
  if data.length < 13 then none
  else
    let magic_cookie := val32 (data.getD 0 0) (data.getD 1 0) (data.getD 2 0) (data.getD 3 0)
    let message_type := data.getD 4 0
    let file_size := val64 (data.getD 5 0) (data.getD 6 0) (data.getD 7 0) (data.getD 8 0)
      (data.getD 9 0) (data.getD 10 0) (data.getD 11 0) (data.getD 12 0)
    if magic_cookie ≠ MAGIC_COOKIE ∨ message_type ≠ REQUEST_MESSAGE_TYPE then none
    else some ⟨magic_cookie, message_type, file_size⟩

/-- Modelled from the spec: no code in the repository decodes a Payload
packet (the client only counts received bytes), but spec §4.1 requires a
`decodePayload` analogous to `decodeOffer`/`decodeRequest`: big-endian
`u32/u8/u64/u64` header, rejecting buffers shorter than the 21-byte header,
wrong magic cookie, or wrong type tag. -/
def decodePayload (data : List Nat) : Option PayloadHeader :=
  if data.length < 21 then none
  else
    let magic_cookie := val32 (data.getD 0 0) (data.getD 1 0) (data.getD 2 0) (data.getD 3 0)
    let message_type := data.getD 4 0
    let total_segments := val64 (data.getD 5 0) (data.getD 6 0) (data.getD 7 0) (data.getD 8 0)
      (data.getD 9 0) (data.getD 10 0) (data.getD 11 0) (data.getD 12 0)
    let segment_index := val64 (data.getD 13 0) (data.getD 14 0) (data.getD 15 0) (data.getD 16 0)
      (data.getD 17 0) (data.getD 18 0) (data.getD 19 0) (data.getD 20 0)
    if magic_cookie ≠ MAGIC_COOKIE ∨ message_type ≠ PAYLOAD_MESSAGE_TYPE then none
    else some ⟨magic_cookie, message_type, total_segments, segment_index⟩

/-! ### UDP server (server.py, handle_udp_request) -/

/-- server.py line 119:
`total_segments = file_size // BUFFER_SIZE + (1 if file_size % BUFFER_SIZE != 0 else 0)`. -/
def total_segments (file_size : Nat) : Nat :=
  file_size / BUFFER_SIZE + (if file_size % BUFFER_SIZE ≠ 0 then 1 else 0)

/-- server.py lines 124-126: the Payload packet for one segment, the 21-byte
header padded with `b'X'` (byte 0x58) up to `BUFFER_SIZE`. -/
def payload_packet (totalSegments segment : Nat) : List Nat :=
  let payload_header := encodePayloadHeader totalSegments segment
  payload_header ++ List.replicate (BUFFER_SIZE - payload_header.length) 0x58

/-- server.py lines 110-127: the complete response of the UDP request handler
to one datagram, as the ordered list of packets sent to the client (empty when
the datagram is rejected). -/
def handle_udp_request (data : List Nat) : List (List Nat) :=
  match decodeRequest data with
  | none => []
  | some req =>
      let ts := total_segments req.fileSize
      (List.range ts).map (fun segment => payload_packet ts segment)

/-! ### TCP server (server.py, handle_tcp_client) -/

/-- server.py lines 83-93: the chunk sizes sent by the loop
`while bytes_sent < file_size`, each chunk `min(4096, remaining)`, phrased by
recursion on the remaining byte count `file_size - bytes_sent`. -/
def tcp_chunks (remaining : Nat) : List Nat :=
  if _h : remaining = 0 then []
  else
    let current_chunk_size := min 4096 remaining
    current_chunk_size :: tcp_chunks (remaining - current_chunk_size)
  decreasing_by
    have : 0 < min 4096 remaining := by omega
    omega

/-- Outcome of one TCP connection handled by the server: how many filler bytes
were sent and whether the error path (log + close) was taken. -/
structure TcpOutcome where
  bytesSent : Nat
  errorLogged : Bool
  deriving Repr, DecidableEq

/-- server.py lines 76-99: `handle_tcp_client` after the size line has been
read and `int(...)` attempted; `none` stands for a string on which Python's
`int` raises (caught by the handler: log + close, nothing sent), `some n` for
a successful parse.  A parsed value enters the send loop
`while bytes_sent < file_size`, which sends nothing when `n ≤ 0`. -/
def handle_tcp_client (parsed : Option Int) : TcpOutcome :=
  match parsed with
  | none => ⟨0, true⟩
  | some file_size => ⟨(tcp_chunks file_size.toNat).sum, false⟩

/-! ### TCP client (client.py, perform_tcp_transfer) -/

/-- Result record of one client TCP session. -/
structure TcpReport where
  recvCalls : Nat
  totalTime : ℚ
  transferSpeed : ℚ
  deriving Repr, DecidableEq

/-- client.py lines 129-151: the client sends `file_size`, then loops
`recv` discarding the data until a zero-length read, then computes
`transfer_speed = (file_size * 8) / total_time if total_time > 0 else 0`.
`delivered` is the sequence of (non-empty) chunk lengths the network hands to
`recv` before the close; the loop performs one `recv` per chunk plus the final
empty read, and accumulates nothing. -/
def perform_tcp_transfer (file_size : Nat) (total_time : ℚ) (delivered : List Nat) : TcpReport :=
  { recvCalls := delivered.length + 1
    totalTime := total_time
    transferSpeed := if total_time > 0 then (file_size * 8 : ℚ) / total_time else 0 }

/-! ### UDP client (client.py, perform_udp_transfer) -/

/-- client.py line 188:
`success_rate = min(100, (total_bytes_received / file_size) * 100) if file_size else 0`. -/
def success_rate (total_bytes_received file_size : Nat) : ℚ :=
  if file_size ≠ 0 then
    min 100 ((total_bytes_received : ℚ) / (file_size : ℚ) * 100)
  else 0

/-! ### Helper lemmas -/

lemma encodePayloadHeader_length (ts seg : Nat) : (encodePayloadHeader ts seg).length = 21 := by
  simp [encodePayloadHeader, u32be, u64be]

lemma payload_packet_eq (ts seg : Nat) :
    payload_packet ts seg = encodePayloadHeader ts seg ++ List.replicate 1003 0x58 := by
  simp only [payload_packet, encodePayloadHeader_length, BUFFER_SIZE]

lemma payload_packet_length (ts seg : Nat) : (payload_packet ts seg).length = 1024 := by
  simp only [payload_packet_eq, List.length_append, encodePayloadHeader_length,
    List.length_replicate]

lemma payload_packet_drop21 (ts seg : Nat) :
    (payload_packet ts seg).drop 21 = List.replicate 1003 0x58 := by
  rw [payload_packet_eq]
  exact List.drop_left' (encodePayloadHeader_length ts seg)

lemma decodeOffer_encodeOffer (u t : Nat) (hu : u < 65536) (ht : t < 65536) :
    decodeOffer (encodeOffer u t) = some ⟨MAGIC_COOKIE, OFFER_MESSAGE_TYPE, u, t⟩ := by
  simp only [decodeOffer, encodeOffer, u32be, u16be, List.cons_append, List.nil_append,
    List.getD_eq_getElem?_getD, List.getElem?_cons_zero, List.getElem?_cons_succ,
    Option.getD_some, List.length_cons, List.length_nil]
  norm_num [val32, val16, MAGIC_COOKIE, OFFER_MESSAGE_TYPE]
  omega

lemma decodeRequest_encodeRequest (fs : Nat) (h : fs < 18446744073709551616) :
    decodeRequest (encodeRequest fs) = some ⟨MAGIC_COOKIE, REQUEST_MESSAGE_TYPE, fs⟩ := by
  simp only [decodeRequest, encodeRequest, u32be, u64be, List.cons_append, List.nil_append,
    List.getD_eq_getElem?_getD, List.getElem?_cons_zero, List.getElem?_cons_succ,
    Option.getD_some, List.length_cons, List.length_nil]
  norm_num [val32, val64, MAGIC_COOKIE, REQUEST_MESSAGE_TYPE]
  omega

lemma decodePayload_payload_packet (ts seg : Nat)
    (hts : ts < 18446744073709551616) (hseg : seg < 18446744073709551616) :
    decodePayload (payload_packet ts seg) =
      some ⟨MAGIC_COOKIE, PAYLOAD_MESSAGE_TYPE, ts, seg⟩ := by
  simp only [decodePayload, payload_packet, encodePayloadHeader, BUFFER_SIZE, u32be, u64be,
    List.cons_append, List.nil_append,
    List.getD_eq_getElem?_getD, List.getElem?_cons_zero, List.getElem?_cons_succ,
    Option.getD_some, List.length_cons, List.length_nil, List.length_append,
    List.length_replicate]
  norm_num [val32, val64, MAGIC_COOKIE, PAYLOAD_MESSAGE_TYPE]
  omega

lemma decodeOffer_short (data : List Nat) (h : data.length < 9) : decodeOffer data = none := by
  simp only [decodeOffer]
  rw [if_pos h]

lemma decodeRequest_short (data : List Nat) (h : data.length < 13) : decodeRequest data = none := by
  simp only [decodeRequest]
  rw [if_pos h]

lemma decodePayload_short (data : List Nat) (h : data.length < 21) : decodePayload data = none := by
  simp only [decodePayload]
  rw [if_pos h]

lemma decodeOffer_bad_cookie (data : List Nat)
    (h : val32 (data.getD 0 0) (data.getD 1 0) (data.getD 2 0) (data.getD 3 0) ≠ MAGIC_COOKIE) :
    decodeOffer data = none := by
  simp only [decodeOffer]
  split_ifs with h1 h2
  · rfl
  · rfl
  · exact absurd (Or.inl h) h2

lemma decodeOffer_bad_type (data : List Nat) (h : data.getD 4 0 ≠ OFFER_MESSAGE_TYPE) :
    decodeOffer data = none := by
  simp only [decodeOffer]
  split_ifs with h1 h2
  · rfl
  · rfl
  · exact absurd (Or.inr h) h2

lemma decodeRequest_bad_cookie (data : List Nat)
    (h : val32 (data.getD 0 0) (data.getD 1 0) (data.getD 2 0) (data.getD 3 0) ≠ MAGIC_COOKIE) :
    decodeRequest data = none := by
  simp only [decodeRequest]
  split_ifs with h1 h2
  · rfl
  · rfl
  · exact absurd (Or.inl h) h2

lemma decodeRequest_bad_type (data : List Nat) (h : data.getD 4 0 ≠ REQUEST_MESSAGE_TYPE) :
    decodeRequest data = none := by
  simp only [decodeRequest]
  split_ifs with h1 h2
  · rfl
  · rfl
  · exact absurd (Or.inr h) h2

lemma decodePayload_bad_cookie (data : List Nat)
    (h : val32 (data.getD 0 0) (data.getD 1 0) (data.getD 2 0) (data.getD 3 0) ≠ MAGIC_COOKIE) :
    decodePayload data = none := by
  simp only [decodePayload]
  split_ifs with h1 h2
  · rfl
  · rfl
  · exact absurd (Or.inl h) h2

lemma decodePayload_bad_type (data : List Nat) (h : data.getD 4 0 ≠ PAYLOAD_MESSAGE_TYPE) :
    decodePayload data = none := by
  simp only [decodePayload]
  split_ifs with h1 h2
  · rfl
  · rfl
  · exact absurd (Or.inr h) h2

lemma handle_udp_request_rejected (data : List Nat) (h : decodeRequest data = none) :
    handle_udp_request data = [] := by
  simp [handle_udp_request, h]

lemma handle_udp_request_accepted (data : List Nat) (req : Request)
    (h : decodeRequest data = some req) :
    handle_udp_request data =
      (List.range (total_segments req.fileSize)).map
        (fun segment => payload_packet (total_segments req.fileSize) segment) := by
  unfold handle_udp_request
  rw [h]

lemma tcp_chunks_sum (n : Nat) : (tcp_chunks n).sum = n := by
  induction n using Nat.strong_induction_on with
  | _ n ih =>
    rw [tcp_chunks]
    split_ifs with h
    · simp [h]
    · have hlt : n - min 4096 n < n := by omega
      simp only [List.sum_cons, ih _ hlt]
      omega

lemma tcp_chunks_bounded (n : Nat) : ∀ c ∈ tcp_chunks n, 0 < c ∧ c ≤ 4096 := by
  induction n using Nat.strong_induction_on with
  | _ n ih =>
    rw [tcp_chunks]
    split_ifs with h
    · simp
    · intro c hc
      rcases List.mem_cons.mp hc with hc | hc
      · omega
      · exact ih _ (by omega) c hc

lemma total_segments_eq_ceil (fs : Nat) : total_segments fs = (fs + 1023) / 1024 := by
  simp only [total_segments, BUFFER_SIZE]
  split_ifs with h <;> omega

lemma total_segments_le (fs : Nat) : total_segments fs ≤ fs := by
  rw [total_segments_eq_ceil]
  omega

lemma tcp_chunks_5000 : tcp_chunks 5000 = [4096, 904] := by
  rw [tcp_chunks]
  norm_num
  rw [tcp_chunks]
  norm_num
  rw [tcp_chunks]
  norm_num

/-! ### Claims -/

/-- C1: Encoding then decoding is lossless: for every valid Offer (ports in u16 range)
and every valid Request (fileSize in u64 range), decoding the encoded message yields back
exactly the original magic cookie, type tag, and field values; likewise for the Payload
header fields (totalSegments, segmentIndex) of the fixed-size payload packet. -/
theorem roundtrip_lossless :
    (∀ udpPort tcpPort : Nat, udpPort < 65536 → tcpPort < 65536 →
      decodeOffer (encodeOffer udpPort tcpPort) =
        some ⟨MAGIC_COOKIE, OFFER_MESSAGE_TYPE, udpPort, tcpPort⟩) ∧
    (∀ fileSize : Nat, fileSize < 18446744073709551616 →
      decodeRequest (encodeRequest fileSize) =
        some ⟨MAGIC_COOKIE, REQUEST_MESSAGE_TYPE, fileSize⟩) ∧
    (∀ ts si : Nat, ts < 18446744073709551616 → si < 18446744073709551616 →
      decodePayload (payload_packet ts si) =
        some ⟨MAGIC_COOKIE, PAYLOAD_MESSAGE_TYPE, ts, si⟩) :=
  ⟨decodeOffer_encodeOffer, decodeRequest_encodeRequest, decodePayload_payload_packet⟩

/-- Witness for C1 at the default ports, a 5000-byte request, and payload segment 2 of 5. -/
theorem roundtrip_lossless_witness :
    decodeOffer (encodeOffer 13117 20000) =
        some ⟨MAGIC_COOKIE, OFFER_MESSAGE_TYPE, 13117, 20000⟩ ∧
    decodeRequest (encodeRequest 5000) = some ⟨MAGIC_COOKIE, REQUEST_MESSAGE_TYPE, 5000⟩ ∧
    decodePayload (payload_packet 5 2) = some ⟨MAGIC_COOKIE, PAYLOAD_MESSAGE_TYPE, 5, 2⟩ :=
  ⟨roundtrip_lossless.1 13117 20000 (by norm_num) (by norm_num),
   roundtrip_lossless.2.1 5000 (by norm_num),
   roundtrip_lossless.2.2 5 2 (by norm_num) (by norm_num)⟩

/-- C2: For every message kind (Offer, Request, Payload), the decoder rejects — returns
`none`, never throws — any buffer shorter than the fixed header length, any buffer whose
magic-cookie field differs from `0xABCDDCBA`, and any buffer whose type field differs from
the expected kind's tag; and a rejected Request datagram makes the UDP handler send
nothing (no side effects). -/
theorem decoders_reject_invalid :
    (∀ data : List Nat, data.length < 9 → decodeOffer data = none) ∧
    (∀ data : List Nat,
      val32 (data.getD 0 0) (data.getD 1 0) (data.getD 2 0) (data.getD 3 0) ≠ MAGIC_COOKIE →
      decodeOffer data = none) ∧
    (∀ data : List Nat, data.getD 4 0 ≠ OFFER_MESSAGE_TYPE → decodeOffer data = none) ∧
    (∀ data : List Nat, data.length < 13 → decodeRequest data = none) ∧
    (∀ data : List Nat,
      val32 (data.getD 0 0) (data.getD 1 0) (data.getD 2 0) (data.getD 3 0) ≠ MAGIC_COOKIE →
      decodeRequest data = none) ∧
    (∀ data : List Nat, data.getD 4 0 ≠ REQUEST_MESSAGE_TYPE → decodeRequest data = none) ∧
    (∀ data : List Nat, data.length < 21 → decodePayload data = none) ∧
    (∀ data : List Nat,
      val32 (data.getD 0 0) (data.getD 1 0) (data.getD 2 0) (data.getD 3 0) ≠ MAGIC_COOKIE →
      decodePayload data = none) ∧
    (∀ data : List Nat, data.getD 4 0 ≠ PAYLOAD_MESSAGE_TYPE → decodePayload data = none) ∧
    (∀ data : List Nat, decodeRequest data = none → handle_udp_request data = []) :=
  ⟨decodeOffer_short, decodeOffer_bad_cookie, decodeOffer_bad_type,
   decodeRequest_short, decodeRequest_bad_cookie, decodeRequest_bad_type,
   decodePayload_short, decodePayload_bad_cookie, decodePayload_bad_type,
   handle_udp_request_rejected⟩

/-- Witness for C2: concrete truncated, cookie-spoofed, and type-spoofed buffers of each
kind are all rejected, and the UDP handler sends nothing for an empty datagram. -/
theorem decoders_reject_invalid_witness :
    decodeOffer [0, 1, 2] = none ∧
    decodeOffer [0, 0, 0, 0, 2, 51, 61, 78, 32] = none ∧
    decodeOffer [171, 205, 220, 186, 9, 51, 61, 78, 32] = none ∧
    decodeRequest [7] = none ∧
    decodeRequest [0, 0, 0, 0, 3, 0, 0, 0, 0, 0, 0, 19, 136] = none ∧
    decodeRequest [171, 205, 220, 186, 2, 0, 0, 0, 0, 0, 0, 19, 136] = none ∧
    decodePayload (List.replicate 20 0) = none ∧
    decodePayload (List.replicate 21 0) = none ∧
    decodePayload (171 :: 205 :: 220 :: 186 :: 3 :: List.replicate 16 0) = none ∧
    handle_udp_request [7] = [] :=
  ⟨decoders_reject_invalid.1 _ (by decide),
   decoders_reject_invalid.2.1 _ (by decide),
   decoders_reject_invalid.2.2.1 _ (by decide),
   decoders_reject_invalid.2.2.2.1 _ (by decide),
   decoders_reject_invalid.2.2.2.2.1 _ (by decide),
   decoders_reject_invalid.2.2.2.2.2.1 _ (by decide),
   decoders_reject_invalid.2.2.2.2.2.2.1 _ (by decide),
   decoders_reject_invalid.2.2.2.2.2.2.2.1 _ (by decide),
   decoders_reject_invalid.2.2.2.2.2.2.2.2.1 _ (by decide),
   decoders_reject_invalid.2.2.2.2.2.2.2.2.2 _ (by decide)⟩

/-- C3: The segment count the UDP server computes equals the ceiling of
`fileSize / 1024`, and takes the values 0, 1, 1, 2, 9766 at
`fileSize = 0, 1, 1024, 1025, 10000000`. -/
theorem total_segments_is_ceil :
    (∀ fileSize : Nat, total_segments fileSize = fileSize ⌈/⌉ BUFFER_SIZE) ∧
    total_segments 0 = 0 ∧ total_segments 1 = 1 ∧ total_segments 1024 = 1 ∧
    total_segments 1025 = 2 ∧ total_segments 10000000 = 9766 := by
  refine ⟨fun fs => ?_, by decide, by decide, by decide, by decide, by decide⟩
  rw [Nat.ceilDiv_eq_add_pred_div, total_segments_eq_ceil]
  congr 1

/-- C4: The TCP server's send loop transmits filler in chunks of size
`min(4096, remaining)` — every chunk is positive and at most 4096, a bound independent of
`fileSize` — the chunk sizes sum to exactly `fileSize` (no chunk at all when
`fileSize = 0`), and the handler reports exactly `fileSize` bytes sent with no error. -/
theorem tcp_send_loop_exact :
    (∀ fileSize : Nat, (tcp_chunks fileSize).sum = fileSize) ∧
    (∀ fileSize : Nat, ∀ c ∈ tcp_chunks fileSize, 0 < c ∧ c ≤ 4096) ∧
    tcp_chunks 0 = [] ∧
    (∀ fileSize : Nat, handle_tcp_client (some (fileSize : Int)) = ⟨fileSize, false⟩) := by
  refine ⟨tcp_chunks_sum, tcp_chunks_bounded, by simp [tcp_chunks], fun fs => ?_⟩
  simp [handle_tcp_client, tcp_chunks_sum]

/-- Witness for C4 at `fileSize = 5000`: the loop sends `[4096, 904]`. -/
theorem tcp_send_loop_exact_witness :
    (tcp_chunks 5000).sum = 5000 ∧ (0 < 4096 ∧ 4096 ≤ 4096) ∧ tcp_chunks 0 = [] ∧
    handle_tcp_client (some 5000) = ⟨5000, false⟩ :=
  ⟨tcp_send_loop_exact.1 5000,
   tcp_send_loop_exact.2.1 5000 4096 (by rw [tcp_chunks_5000]; norm_num),
   tcp_send_loop_exact.2.2.1,
   tcp_send_loop_exact.2.2.2 5000⟩

/-- C5: For positive `fileSize` the UDP client's reported success rate equals
`min(100, bytesReceived / fileSize * 100)`; it never exceeds 100, and equals exactly 100
whenever `bytesReceived ≥ fileSize`. -/
theorem udp_success_rate_clamped :
    ∀ bytesReceived fileSize : Nat, 0 < fileSize →
      success_rate bytesReceived fileSize =
        min 100 ((bytesReceived : ℚ) / (fileSize : ℚ) * 100) ∧
      success_rate bytesReceived fileSize ≤ 100 ∧
      (fileSize ≤ bytesReceived → success_rate bytesReceived fileSize = 100) := by
  intro r fs h
  rw [success_rate, if_pos (by omega)]
  refine ⟨rfl, min_le_left _ _, fun hr => ?_⟩
  have hfs : (0 : ℚ) < fs := by exact_mod_cast h
  have h1 : (1 : ℚ) ≤ (r : ℚ) / fs := (one_le_div hfs).mpr (by exact_mod_cast hr)
  have : (100 : ℚ) ≤ (r : ℚ) / fs * 100 := by nlinarith
  exact min_eq_left this

/-- Witness for C5 at `bytesReceived = 2000, fileSize = 1000`: the rate is clamped to 100. -/
theorem udp_success_rate_clamped_witness :
    success_rate 2000 1000 = min 100 ((2000 : ℚ) / (1000 : ℚ) * 100) ∧
    success_rate 2000 1000 ≤ 100 ∧ success_rate 2000 1000 = 100 :=
  ⟨(udp_success_rate_clamped 2000 1000 (by norm_num)).1,
   (udp_success_rate_clamped 2000 1000 (by norm_num)).2.1,
   (udp_success_rate_clamped 2000 1000 (by norm_num)).2.2 (by norm_num)⟩

/-- C6 counterexample: a line parsing to the negative integer -5 is NOT treated as
malformed by the TCP handler — the error path (log + close) is not taken
(`errorLogged = false`), the handler completes normally having sent zero filler bytes. -/
theorem tcp_negative_size_not_aborted :
    (handle_tcp_client (some (-5))).errorLogged = false ∧
    (handle_tcp_client (some (-5))).bytesSent = 0 := by
  constructor
  · rfl
  · simp [handle_tcp_client, tcp_chunks]

/-- C6 (amended): only input on which integer parsing fails aborts the connection
(log + close) with no filler sent; a negative parsed value is accepted without error and
results in zero filler bytes before the connection is closed normally. -/
theorem tcp_malformed_input_handling :
    handle_tcp_client none = ⟨0, true⟩ ∧
    (∀ n : Int, n < 0 → handle_tcp_client (some n) = ⟨0, false⟩) := by
  refine ⟨rfl, fun n hn => ?_⟩
  have h0 : n.toNat = 0 := Int.toNat_of_nonpos hn.le
  simp [handle_tcp_client, h0, tcp_chunks]

/-- Witness for C6 (amended) at the parse-failure input and at `n = -3`. -/
theorem tcp_malformed_input_handling_witness :
    handle_tcp_client none = ⟨0, true⟩ ∧ handle_tcp_client (some (-3)) = ⟨0, false⟩ :=
  ⟨tcp_malformed_input_handling.1, tcp_malformed_input_handling.2 (-3) (by norm_num)⟩

/-- C7: The TCP client's reported speed is `fileSize * 8 / elapsed` when `elapsed > 0`
and is defined as 0 when `elapsed = 0`: the computation never divides by zero. -/
theorem tcp_speed_no_division_by_zero :
    (∀ fileSize : Nat, ∀ elapsed : ℚ, ∀ delivered : List Nat, 0 < elapsed →
      (perform_tcp_transfer fileSize elapsed delivered).transferSpeed =
        (fileSize * 8 : ℚ) / elapsed) ∧
    (∀ fileSize : Nat, ∀ delivered : List Nat,
      (perform_tcp_transfer fileSize 0 delivered).transferSpeed = 0) := by
  constructor
  · intro fs e d he
    simp [perform_tcp_transfer, he]
  · intro fs d
    simp [perform_tcp_transfer]

/-- Witness for C7 at `fileSize = 100`, `elapsed = 2` and `elapsed = 0`. -/
theorem tcp_speed_no_division_by_zero_witness :
    (perform_tcp_transfer 100 2 []).transferSpeed = (100 * 8 : ℚ) / 2 ∧
    (perform_tcp_transfer 100 0 []).transferSpeed = 0 :=
  ⟨tcp_speed_no_division_by_zero.1 100 2 [] (by norm_num),
   tcp_speed_no_division_by_zero.2 100 []⟩

/-- C8: For every accepted Request, the UDP server sends exactly `total_segments fileSize`
Payload packets, the packet at position `seg` carries segment index `seg` (so the segments
go out in order 0, 1, ...), and every packet is exactly 1024 bytes: a 21-byte header
decoding to (magic cookie, type 0x4, totalSegments, segmentIndex) followed by 1003 filler
bytes `b'X'`. -/
theorem udp_payload_stream :
    ∀ fileSize : Nat, fileSize < 18446744073709551616 →
      (handle_udp_request (encodeRequest fileSize)).length = total_segments fileSize ∧
      (∀ seg : Nat, seg < total_segments fileSize →
        (handle_udp_request (encodeRequest fileSize)).getD seg [] =
          payload_packet (total_segments fileSize) seg ∧
        (payload_packet (total_segments fileSize) seg).length = 1024 ∧
        decodePayload (payload_packet (total_segments fileSize) seg) =
          some ⟨MAGIC_COOKIE, PAYLOAD_MESSAGE_TYPE, total_segments fileSize, seg⟩ ∧
        (payload_packet (total_segments fileSize) seg).drop 21 =
          List.replicate 1003 0x58) := by
  intro fs hfs
  have hacc := handle_udp_request_accepted (encodeRequest fs)
    ⟨MAGIC_COOKIE, REQUEST_MESSAGE_TYPE, fs⟩ (decodeRequest_encodeRequest fs hfs)
  have hts : total_segments fs < 18446744073709551616 :=
    lt_of_le_of_lt (total_segments_le fs) hfs
  constructor
  · rw [hacc]; simp
  · intro seg hseg
    refine ⟨?_, payload_packet_length _ _,
      decodePayload_payload_packet _ _ hts (lt_trans hseg hts), payload_packet_drop21 _ _⟩
    rw [hacc]
    rw [List.getD_eq_getElem?_getD, List.getElem?_map, List.getElem?_range hseg]
    rfl

/-- Witness for C8 at `fileSize = 5000` (5 segments), segment 2. -/
theorem udp_payload_stream_witness :
    (handle_udp_request (encodeRequest 5000)).length = total_segments 5000 ∧
    (handle_udp_request (encodeRequest 5000)).getD 2 [] =
      payload_packet (total_segments 5000) 2 ∧
    (payload_packet (total_segments 5000) 2).length = 1024 ∧
    decodePayload (payload_packet (total_segments 5000) 2) =
      some ⟨MAGIC_COOKIE, PAYLOAD_MESSAGE_TYPE, total_segments 5000, 2⟩ ∧
    (payload_packet (total_segments 5000) 2).drop 21 = List.replicate 1003 0x58 :=
  ⟨(udp_payload_stream 5000 (by norm_num)).1,
   ((udp_payload_stream 5000 (by norm_num)).2 2 (by decide)).1,
   ((udp_payload_stream 5000 (by norm_num)).2 2 (by decide)).2.1,
   ((udp_payload_stream 5000 (by norm_num)).2 2 (by decide)).2.2.1,
   ((udp_payload_stream 5000 (by norm_num)).2 2 (by decide)).2.2.2⟩

/-- C9: The TCP client's reported speed depends only on the requested `fileSize` and the
elapsed time: two runs that deliver different byte totals but share `fileSize` and elapsed
time report the identical speed — the client never counts the bytes it receives. -/
theorem tcp_speed_ignores_received_bytes :
    ∀ fileSize : Nat, ∀ elapsed : ℚ, ∀ d₁ d₂ : List Nat, d₁.sum ≠ d₂.sum →
      (perform_tcp_transfer fileSize elapsed d₁).transferSpeed =
        (perform_tcp_transfer fileSize elapsed d₂).transferSpeed := by
  intro fs e d₁ d₂ _
  rfl

/-- Witness for C9: delivering 5000 bytes versus none reports the same speed. -/
theorem tcp_speed_ignores_received_bytes_witness :
    (perform_tcp_transfer 100 1 [5000]).transferSpeed =
      (perform_tcp_transfer 100 1 []).transferSpeed :=
  tcp_speed_ignores_received_bytes 100 1 [5000] [] (by decide)

/-- C10: When `fileSize = 0` the UDP client's success-rate computation takes the guard's
else-branch: the reported rate is 0 for every `bytesReceived`, with no division by zero. -/
theorem udp_success_rate_zero_filesize :
    ∀ bytesReceived : Nat, success_rate bytesReceived 0 = 0 := by
  intro r
  simp [success_rate]

end SpeedTest
